import Mathlib

/-!
Verification development for the GratifPanel CSV-ingestion backend
(`backend/ingestao.py` and `backend/app.py`).

The repository reads a semicolon-delimited payroll CSV into an all-string
table, validates the header against a fixed list of 19 required columns,
transforms the rows (trimming, deriving the composite key `cod`,
normalizing the `VALOR` currency string, dropping invalid rows, renaming
to lower-case storage names, stamping import metadata), extracts the
dominant competency (`mes_ano`), optionally deletes existing rows for the
competency, inserts the transformed rows into the store in batches of
500, and writes one audit-log record.

The shallow embedding below models:
  * a parsed data frame as an ordered list of raw rows plus the header;
  * `pandas` string cells as `Option String` (`none` is pandas `NaN`);
  * monetary values as `Rat` (the decimal parse is exact at this level;
    IEEE rounding of `float` is not observable in any claim);
  * the external Supabase store as a list of persisted rows, and every
    store call an endpoint issues as an element of an explicit operation
    trace, so read-only behaviour is a statement about the trace;
  * per-batch insert success/failure (an exception thrown by the store
    client) as an oracle `Nat → Bool` indexed by batch ordinal.

Each definition is translated from the named Python function; comments
note the pandas semantics relied upon (e.g. `Series.mode` drops nulls,
`.iloc[0]` on an empty result raises `IndexError`).
-/

/-- Leading and trailing whitespace removed from a character list.
Python `str.strip()` also removes a few rarer Unicode space characters;
the claims only involve ASCII whitespace, covered by
`Char.isWhitespace`. -/
def trimChars (cs : List Char) : List Char :=
  ((cs.dropWhile Char.isWhitespace).reverse.dropWhile Char.isWhitespace).reverse

/-- The embedding of Python `str.strip()` / pandas `.str.strip()`,
written over the character list so that it evaluates inside the
kernel. -/
def pyStrip (s : String) : String :=
  String.mk (trimChars s.data)

/-- The embedding of Python `str.lower()` (ASCII case folding; the
claims only involve ASCII letters). -/
def pyLower (s : String) : String :=
  String.mk (s.data.map Char.toLower)

/-- Replace every comma by a dot, the embedding of
`s.str.replace(",", ".", regex=False)` in `transformar` step 4. -/
def commaToDot (s : String) : String :=
  String.mk (s.data.map (fun c => if c = ',' then '.' else c))

/-- Keep only digits, dots and minus signs, the embedding of
`s.str.replace(r"[^\d.\-]", "", regex=True)` in `transformar` step 4.
Python's `\d` also matches non-ASCII decimal digits; the claims only
involve ASCII input, so ASCII `Char.isDigit` is used. -/
def stripBad (s : String) : String :=
  String.mk (s.data.filter (fun c => c.isDigit || c = '.' || c = '-'))

/-- Value of a list of ASCII digit characters read in base 10. -/
def digitsToNat (cs : List Char) : Nat :=
  cs.foldl (fun a c => a * 10 + (c.toNat - 48)) 0

/-- Exact decimal parse of a string over the alphabet of digits, dots and
minus signs, the embedding of `pd.to_numeric(s, errors="coerce")` applied
to the output of `stripBad ∘ commaToDot` in `transformar` step 4 (`none`
is the coerced `NaN`).  On that alphabet `pd.to_numeric` accepts exactly
an optional leading minus followed by digits holding at most one dot and
at least one digit (so `"1.234.56"`, `""`, `"-"`, `"."`, `"1-2"` are all
rejected, while `"5."` and `"-.5"` parse). -/
def parseDecimal (s : String) : Option Rat :=
  let neg := s.data.head? = some '-'
  let cs := if neg then s.data.tail else s.data
  if cs.all (fun c => c.isDigit || c = '.') ∧
     cs.countP (fun c => c = '.') ≤ 1 ∧
     cs.any (fun c => c.isDigit) then
    let intPart := cs.takeWhile (fun c => c ≠ '.')
    let fracPart := (cs.dropWhile (fun c => c ≠ '.')).tail
    let v : Rat := mkRat (digitsToNat (intPart ++ fracPart)) (10 ^ fracPart.length)
    some (if neg then -v else v)
  else
    none

/-- Mantissa check for `pyFloatOk`: digits with at most one dot and at
least one digit. -/
def mantissaOk (cs : List Char) : Bool :=
  cs.all (fun c => c.isDigit || c = '.') &&
  decide (cs.countP (fun c => c = '.') ≤ 1) &&
  cs.any (fun c => c.isDigit)

/-- Exponent check for `pyFloatOk`: optional sign then a nonempty digit
string. -/
def expPartOk (cs : List Char) : Bool :=
  let cs := match cs with
    | c :: rest => if c = '+' || c = '-' then rest else c :: rest
    | [] => []
  !cs.isEmpty && cs.all (fun c => c.isDigit)

/-- Whether `pd.to_numeric(s, errors="coerce")` applied to an arbitrary
string yields a non-NaN number: surrounding whitespace is ignored, an
optional sign is allowed, then either an infinity literal or a decimal
mantissa with an optional exponent.  The literal `"nan"` parses to NaN
and therefore counts as not-a-number here, exactly as the
`valores_invalidos` counter in `validar_csv` observes it through
`.isna()`. -/
def pyFloatOk (s : String) : Bool :=
  let t := (trimChars s.data).map Char.toLower
  let cs := match t with
    | c :: rest => if c = '+' || c = '-' then rest else c :: rest
    | [] => []
  match cs.span (fun c => c ≠ 'e') with
  | (m, []) => (m = ['i', 'n', 'f'] : Bool) || (m = "infinity".data : Bool) || mantissaOk m
  | (m, _ :: ex) => mantissaOk m && expPartOk ex

/-- The 19 required CSV columns, `COLUNAS_MANTER` in `ingestao.py`. -/
def COLUNAS_MANTER : List String :=
  ["EMP_CODIGO", "MES_ANO", "NUM_FOLHA", "SETOR", "ORGAO",
   "NUMFUNC", "NUMVINC", "SITUACAO", "CARGO", "TIPOVINC",
   "RUBRICA", "NOME_RUBRICA", "COMPLEMENTO", "COMPETENCIA", "INFO",
   "TIPO_PAGAMENTO", "TIPO_RUBRICA", "VDA", "VALOR"]

/-- Batch size for inserts, `TAMANHO_LOTE` in `ingestao.py`. -/
def TAMANHO_LOTE : Nat := 500

/-- One raw CSV row read with `dtype=str`: every cell is a string or
pandas `NaN` (`none`).  The 19 required columns are modelled as fields;
`nome_cargo` and `nome_orgao` are two non-required columns that the
preview in `validar_csv` may also show.  Columns outside these are
dropped unread by `transformar` step 1 and never consulted elsewhere, so
they are not modelled.  A field is only meaningful when its column name
occurs in the data frame's header list. -/
structure RawRow where
  emp_codigo : Option String
  mes_ano : Option String
  num_folha : Option String
  setor : Option String
  orgao : Option String
  numfunc : Option String
  numvinc : Option String
  situacao : Option String
  cargo : Option String
  tipovinc : Option String
  rubrica : Option String
  nome_rubrica : Option String
  complemento : Option String
  competencia : Option String
  info : Option String
  tipo_pagamento : Option String
  tipo_rubrica : Option String
  vda : Option String
  valor : Option String
  nome_cargo : Option String
  nome_orgao : Option String
deriving DecidableEq

/-- A parsed data frame: the header (ordered column names as discovered
in the file) and the rows.  CSV parsing and encoding detection are
deterministic functions of the uploaded bytes and are out of scope
(external libraries); endpoints are modelled from the parsed frame on. -/
structure Df where
  columns : List String
  rows : List RawRow
deriving DecidableEq

/-- One transformed record as produced by `transformar`: the 16 renamed
business columns, the derived key `cod`, the numeric `valor`, and the
the import metadata.  String cells stay `Option String`: `NaN`
becomes `None` in step 9, modelled by `none` throughout. -/
structure TRecord where
  emp_codigo : Option String
  mes_ano : Option String
  num_folha : Option String
  setor : Option String
  orgao : Option String
  situacao : Option String
  cargo : Option String
  tipovinc : Option String
  rubrica : Option String
  nome_rubrica : Option String
  complemento : Option String
  competencia : Option String
  info : Option String
  tipo_pagamento : Option String
  tipo_rubrica : Option String
  vda : Option String
  valor : Rat
  cod : String
  importado_por : String
  importado_em : String
deriving DecidableEq

/-- One audit-log record as inserted by `registrar_log`. -/
structure LogEntry where
  mes_ano : String
  operacao : String
  arquivo : String
  linhas_total : Nat
  linhas_inseridas : Nat
  linhas_erro : Nat
  importado_por : String
  importado_em : String
deriving DecidableEq

/-- A store call issued by an endpoint, in order.  `selectCount` and
`selectAll` are reads; the other three are writes. -/
inductive Op where
  | selectCount (mes : String)
  | selectAll
  | insertGrat (lote : List TRecord)
  | deleteGrat (mes : String)
  | insertLog (e : LogEntry)
deriving DecidableEq

/-- Whether a store call is a pure read. -/
def Op.isRead : Op → Bool
  | .selectCount _ => true
  | .selectAll => true
  | _ => false

/-- The persisted `gratificacoes` table: one entry per persisted row. -/
abbrev Store := List TRecord

/-- Effect of one store call on the `gratificacoes` table.  Supabase
`eq("mes_ano", m)` does not match SQL nulls, so `deleteGrat` keeps rows
whose `mes_ano` is `none`. -/
def applyOp (s : Store) : Op → Store
  | .insertGrat lote => s ++ lote
  | .deleteGrat m => s.filter (fun t => t.mes_ano != some m)
  | _ => s

/-- Effect of a trace of store calls, first call first. -/
def applyOps (s : Store) (ops : List Op) : Store :=
  ops.foldl applyOp s

/-- Number of persisted rows of one competency, the count observed by
`select("id", count="exact").eq("mes_ano", m)` and the number of rows
removed by `delete().eq("mes_ano", m)`. -/
def countMes (s : Store) (m : String) : Nat :=
  (s.filter (fun t => t.mes_ano == some m)).length

/-- Required columns absent from a header, the list `faltando` of
`validar_colunas` and `colunas_faltando` of `validar_csv`:
`[c for c in COLUNAS_MANTER if c not in df.columns]`. -/
def faltando (cols : List String) : List String :=
  COLUNAS_MANTER.filter (fun c => !(cols.contains c))

/-- The embedding of `validar_colunas`: succeed exactly when no required
column is missing. -/
def validar_colunas (cols : List String) : Bool :=
  (faltando cols).isEmpty

/-- Trim a pandas string cell, `NaN` staying `NaN`: the per-column
`df[col].str.strip()` of `transformar` step 2. -/
def optTrim (x : Option String) : Option String :=
  x.map pyStrip

/-- The derived composite key of one row, `transformar` step 3:
`(df["NUMFUNC"].fillna("") + df["NUMVINC"].fillna("")).str.strip()`
applied to the already-trimmed columns of step 2. -/
def codOf (r : RawRow) : String :=
  pyStrip (((optTrim r.numfunc).getD "") ++ ((optTrim r.numvinc).getD ""))

/-- The normalised `VALOR` string of one row, `transformar` step 4 before
the numeric parse, applied to the already-trimmed cell (`NaN` stays
`NaN`). -/
def valorNorm (x : Option String) : Option String :=
  (optTrim x).map (fun s => stripBad (commaToDot s))

/-- The parsed numeric `VALOR` of one row (`none` is the `NaN` produced
by `pd.to_numeric(..., errors="coerce")`, either from a `NaN` cell or
from an unparseable string). -/
def valorParsed (r : RawRow) : Option Rat :=
  (valorNorm r.valor).bind parseDecimal

/-- Transformation of a single row: steps 2–9 of `transformar`.  The row
survives exactly when its parsed `VALOR` is a number and its `cod` is
nonempty (step 5 `dropna(subset=["cod","VALOR"])` followed by
`df[df["cod"] != ""]`; `cod` is never `NaN` after `fillna`).  Surviving
rows are renamed to the lower-case storage names, lose the original
`NUMFUNC`/`NUMVINC`, and are stamped with the importing user and
the import timestamp (`datetime.now().isoformat()` given as `agora`). -/
def stepRow (usr agora : String) (r : RawRow) : Option TRecord :=
  match valorParsed r with
  | none => none
  | some v =>
    if codOf r = "" then none
    else
      some
        { emp_codigo := optTrim r.emp_codigo
          mes_ano := optTrim r.mes_ano
          num_folha := optTrim r.num_folha
          setor := optTrim r.setor
          orgao := optTrim r.orgao
          situacao := optTrim r.situacao
          cargo := optTrim r.cargo
          tipovinc := optTrim r.tipovinc
          rubrica := optTrim r.rubrica
          nome_rubrica := optTrim r.nome_rubrica
          complemento := optTrim r.complemento
          competencia := optTrim r.competencia
          info := optTrim r.info
          tipo_pagamento := optTrim r.tipo_pagamento
          tipo_rubrica := optTrim r.tipo_rubrica
          vda := optTrim r.vda
          valor := v
          cod := codOf r
          importado_por := usr
          importado_em := agora }

/-- The embedding of `transformar`: the surviving transformed records in
order, together with the removed-row count reported by step 5
(`antes - depois`). -/
def transformar (rows : List RawRow) (usr agora : String) : List TRecord × Nat :=
  let out := rows.filterMap (stepRow usr agora)
  (out, rows.length - out.length)

/-- Lexicographic comparison of character lists by code point, the order
Python uses on `str`. -/
def charListLt (a b : List Char) : Bool :=
  match a, b with
  | [], [] => false
  | [], _ :: _ => true
  | _ :: _, [] => false
  | c :: cs, d :: ds =>
    if c.toNat < d.toNat then true
    else if d.toNat < c.toNat then false
    else charListLt cs ds

/-- Lexicographic string order by code point. -/
def strLt (a b : String) : Bool :=
  charListLt a.data b.data

/-- Argmax step used to model `Series.mode().iloc[0]`: prefer the value
with the strictly larger multiplicity in `vals`; on equal multiplicity
prefer the smaller string (pandas sorts the modes ascending and
`.iloc[0]` takes the first). -/
def pick (vals : List String) (x y : String) : String :=
  if vals.count x < vals.count y then y
  else if vals.count y = vals.count x ∧ strLt y x then y else x

/-- The embedding of `Series.mode().iloc[0]` over the non-null values
`vals` of a pandas string column (`Series.mode` drops nulls by default):
the smallest value of maximal multiplicity, or `none` when `vals` is
empty, in which case `.iloc[0]` raises `IndexError`. -/
def modeSmallest (vals : List String) : Option String :=
  match vals with
  | [] => none
  | v :: vs => some (vs.foldl (pick (v :: vs)) v)

/-- The embedding of `extrair_mes_ano`, applied (as both callers do) to
the output of `transformar`, where the `mes_ano` column always exists:
`DESCONHECIDO` when the frame has no rows, otherwise the mode of the
non-null `mes_ano` values — `none` modelling the `IndexError` that
`.iloc[0]` raises when every `mes_ano` is null so that the mode series
is empty. -/
def extrair_mes_ano (rows : List TRecord) : Option String :=
  if rows.isEmpty then some "DESCONHECIDO"
  else modeSmallest (rows.filterMap (fun t => t.mes_ano))

/-- The batches `registros[i : i + TAMANHO_LOTE]` visited by the loop
`for i in range(0, total, TAMANHO_LOTE)` of `inserir_em_lotes`, in
order. -/
def chunksTR (l : List TRecord) : List (List TRecord) :=
  if hl : l = [] then []
  else l.take TAMANHO_LOTE :: chunksTR (l.drop TAMANHO_LOTE)
termination_by l.length
decreasing_by
  simp only [List.length_drop, TAMANHO_LOTE]
  have : 0 < l.length := List.length_pos.mpr hl
  omega

/-- Loop body of `inserir_em_lotes` from batch ordinal `k` on: one
`insert` call per batch; a successful call (oracle true) adds the batch
size to the inserted count, a failing one (the store client raised) adds
it to the error count, and the loop continues either way. -/
def lotesAux (oracle : Nat → Bool) (k : Nat) (l : List TRecord) :
    (Nat × Nat) × List Op :=
  if hl : l = [] then ((0, 0), [])
  else
    let lote := l.take TAMANHO_LOTE
    let r := lotesAux oracle (k + 1) (l.drop TAMANHO_LOTE)
    if oracle k then ((lote.length + r.1.1, r.1.2), .insertGrat lote :: r.2)
    else ((r.1.1, lote.length + r.1.2), .insertGrat lote :: r.2)
termination_by l.length
decreasing_by
  simp only [List.length_drop, TAMANHO_LOTE]
  have : 0 < l.length := List.length_pos.mpr hl
  omega

/-- The embedding of `inserir_em_lotes`: returns
`(inseridos, erros)` and the trace of issued `insert` calls. -/
def inserir_em_lotes (oracle : Nat → Bool) (registros : List TRecord) :
    (Nat × Nat) × List Op :=
  lotesAux oracle 0 registros

/-- Normalisation applied by `login` to the submitted e-mail:
`email.strip().lower()`. -/
def normEmail (email : String) : String :=
  pyLower (pyStrip email)

/-- Outcome of the `login` endpoint. -/
inductive LoginRes where
  | forbidden
  | unauthorized
  | ok (email : String)
deriving DecidableEq

/-- The embedding of the `login` endpoint of `app.py`.  `users` is the
`ALLOWED_USERS` dict keyed by normalised e-mail (modelled as an
association list looked up front to back): 403 when it is empty, 200
echoing the submitted (un-normalised) e-mail when the normalised e-mail
is a key whose stored password equals the submitted one, 401
otherwise. -/
def login (users : List (String × String)) (email password : String) : LoginRes :=
  if users.isEmpty then .forbidden
  else
    match users.lookup (normEmail email) with
    | some pw => if pw = password then .ok email else .unauthorized
    | none => .unauthorized

/-- Preview columns of `validar_csv`. -/
def COLUNAS_PREVIEW : List String :=
  ["NUMFUNC", "NUMVINC", "NOME_CARGO", "NOME_ORGAO",
   "MES_ANO", "COMPETENCIA", "NOME_RUBRICA", "VALOR"]

/-- Cell of a raw row under a preview column name. -/
def rawField (r : RawRow) (c : String) : Option String :=
  if c = "NUMFUNC" then r.numfunc
  else if c = "NUMVINC" then r.numvinc
  else if c = "NOME_CARGO" then r.nome_cargo
  else if c = "NOME_ORGAO" then r.nome_orgao
  else if c = "MES_ANO" then r.mes_ano
  else if c = "COMPETENCIA" then r.competencia
  else if c = "NOME_RUBRICA" then r.nome_rubrica
  else if c = "VALOR" then r.valor
  else none

/-- The preview of `validar_csv`: first 5 rows restricted to the preview
columns present in the header, nulls shown as `""` (`fillna("")`). -/
def previewOf (df : Df) : List (List (String × String)) :=
  let colsP := COLUNAS_PREVIEW.filter (fun c => df.columns.contains c)
  (df.rows.take 5).map (fun r => colsP.map (fun c => (c, (rawField r c).getD "")))

/-- Response body of a successful `validar_csv` call. -/
structure VResp where
  ok : Bool
  total_linhas : Nat
  colunas_faltando : List String
  mes_ano : Option String
  ja_existe : Bool
  valores_invalidos : Nat
  preview : List (List (String × String))
  encoding : String
deriving DecidableEq

/-- The unparseable-`VALOR` counter of `validar_csv`: the raw (untrimmed,
unstripped) cells after comma-to-dot replacement through
`pd.to_numeric(..., errors="coerce").isna()`; a `NaN` cell is counted. -/
def valoresInvalidos (df : Df) : Nat :=
  if df.columns.contains "VALOR" then
    df.rows.countP (fun r =>
      match r.valor with
      | none => true
      | some s => !pyFloatOk (commaToDot s))
  else 0

/-- The embedding of the `validar_csv` endpoint from parsed frame on
(`encoding` is the detected name, passed through to the response).
Computes the missing columns, the row count, the dominant raw `MES_ANO`
(`mode().iloc[0].strip()` — an `IndexError`, modelled as `.error`, when
the column exists but has no non-null value), whether that competency
already has persisted rows (one `selectCount` read, issued only when the
competency string is truthy), the preview and the unparseable-`VALOR`
count.  The trace lists every store call issued. -/
def validar_csv (df : Df) (encoding : String) (store : Store) :
    Except String VResp × List Op :=
  let cf := faltando df.columns
  if df.columns.contains "MES_ANO" then
    match modeSmallest (df.rows.filterMap (fun r => r.mes_ano)) with
    | none => (.error "IndexError: single positional indexer is out-of-bounds", [])
    | some m0 =>
      let m := pyStrip m0
      if m = "" then
        (.ok { ok := cf.isEmpty, total_linhas := df.rows.length,
               colunas_faltando := cf, mes_ano := some m, ja_existe := false,
               valores_invalidos := valoresInvalidos df,
               preview := previewOf df, encoding := encoding }, [])
      else
        (.ok { ok := cf.isEmpty, total_linhas := df.rows.length,
               colunas_faltando := cf, mes_ano := some m,
               ja_existe := 0 < countMes store m,
               valores_invalidos := valoresInvalidos df,
               preview := previewOf df, encoding := encoding },
         [Op.selectCount m])
  else
    (.ok { ok := cf.isEmpty, total_linhas := df.rows.length,
           colunas_faltando := cf, mes_ano := none, ja_existe := false,
           valores_invalidos := valoresInvalidos df,
           preview := previewOf df, encoding := encoding }, [])

/-- Response body of a successful `importar_csv` call. -/
structure IResp where
  mes_ano : String
  inseridos : Nat
  erros : Nat
  operacao : String
deriving DecidableEq

/-- The embedding of the `importar_csv` endpoint from parsed frame on:
reject with client error 400 before any store call when a required
column is missing (this endpoint re-raises `HTTPException`, so the 400
survives the generic handler); otherwise transform, extract the
competency (an `IndexError` there — every transformed `mes_ano` null —
is caught by the blanket handler and surfaces as 500, still before any
store call), delete the competency's rows when `substituir` is set,
insert in batches, and write exactly one audit-log record. -/
def importar_csv (oracle : Nat → Bool) (df : Df) (usr arquivo : String)
    (substituir : Bool) (agora agoraLog : String) :
    Except (Nat × String) IResp × List Op :=
  if validar_colunas df.columns then
    let recs := (transformar df.rows usr agora).1
    match extrair_mes_ano recs with
    | none => (.error (500, "IndexError: single positional indexer is out-of-bounds"), [])
    | some mes =>
      let operacao := if substituir then "SUBSTITUICAO" else "NOVA"
      let delOps : List Op := if substituir then [.deleteGrat mes] else []
      let ie := inserir_em_lotes oracle recs
      let entry : LogEntry :=
        { mes_ano := mes, operacao := operacao, arquivo := arquivo,
          linhas_total := recs.length, linhas_inseridas := ie.1.1,
          linhas_erro := ie.1.2, importado_por := usr, importado_em := agoraLog }
      (.ok { mes_ano := mes, inseridos := ie.1.1, erros := ie.1.2,
             operacao := operacao },
       delOps ++ ie.2 ++ [.insertLog entry])
  else
    (.error (400, "Estrutura do CSV inválida."), [])

/-- Response body of a successful `delete-competencia` call. -/
structure DResp where
  ok : Bool
  deleted : Nat
deriving DecidableEq

/-- The embedding of the `delete-competencia` endpoint.  `body` is the
`mes_ano` value of the JSON body (`none` when the key is absent or
null).  When it is absent or falsy (empty string), the handler raises
`HTTPException(400, "mes_ano não fornecido")` — but unlike
`importar_csv` this endpoint has no `except HTTPException: raise`
clause, so the blanket `except Exception` catches it and re-raises it as
status 500 with `str(e) = "400: mes_ano não fornecido"`.  Otherwise one
`deleteGrat` call is issued and the number of deleted rows returned. -/
def deletar_competencia_api (store : Store) (body : Option String) :
    Except (Nat × String) DResp × List Op :=
  match body with
  | none => (.error (500, "400: mes_ano não fornecido"), [])
  | some m =>
    if m = "" then (.error (500, "400: mes_ano não fornecido"), [])
    else (.ok { ok := true, deleted := countMes store m }, [Op.deleteGrat m])

/-! Helper lemmas. -/

theorem mem_faltando (cols : List String) (c : String) :
    c ∈ faltando cols ↔ c ∈ COLUNAS_MANTER ∧ c ∉ cols := by
  simp [faltando, List.mem_filter]

theorem validar_colunas_iff (cols : List String) :
    validar_colunas cols = true ↔ ∀ c ∈ COLUNAS_MANTER, c ∈ cols := by
  simp only [validar_colunas, List.isEmpty_iff]
  constructor
  · intro h c hc
    by_contra hn
    have : c ∈ faltando cols := (mem_faltando cols c).mpr ⟨hc, hn⟩
    simp [h] at this
  · intro h
    by_contra hne
    obtain ⟨c, hc⟩ := List.exists_mem_of_ne_nil _ hne
    have := (mem_faltando cols c).mp hc
    exact this.2 (h c this.1)

theorem length_filterMap_eq_countP {α β : Type} (f : α → Option β) (l : List α) :
    (l.filterMap f).length = l.countP (fun a => (f a).isSome) := by
  induction l with
  | nil => simp
  | cons a l ih =>
    cases h : f a with
    | none => simp [List.filterMap_cons, h, List.countP_cons, ih]
    | some b => simp [List.filterMap_cons, h, List.countP_cons, ih]

theorem pick_cases (vals : List String) (x y : String) :
    pick vals x y = x ∨ pick vals x y = y := by
  unfold pick
  split
  · right; rfl
  · split
    · right; rfl
    · left; rfl

theorem count_le_pick_left (vals : List String) (x y : String) :
    vals.count x ≤ vals.count (pick vals x y) := by
  unfold pick
  split
  · omega
  · split
    · rename_i h h2
      omega
    · exact Nat.le_refl _

theorem count_le_pick_right (vals : List String) (x y : String) :
    vals.count y ≤ vals.count (pick vals x y) := by
  unfold pick
  split
  · exact Nat.le_refl _
  · split
    · exact Nat.le_refl _
    · rename_i h h2
      omega

theorem foldl_pick_mem (vals l : List String) :
    ∀ acc, l.foldl (pick vals) acc = acc ∨ l.foldl (pick vals) acc ∈ l := by
  induction l with
  | nil => intro acc; left; rfl
  | cons b l ih =>
    intro acc
    rcases ih (pick vals acc b) with h | h
    · rcases pick_cases vals acc b with hp | hp
      · left; rw [List.foldl_cons, h, hp]
      · right; rw [List.foldl_cons, h, hp]; exact List.mem_cons_self b l
    · right
      rw [List.foldl_cons]
      exact List.mem_cons_of_mem b h

theorem count_foldl_pick_acc (vals l : List String) :
    ∀ acc, vals.count acc ≤ vals.count (l.foldl (pick vals) acc) := by
  induction l with
  | nil => intro acc; exact Nat.le_refl _
  | cons b l ih =>
    intro acc
    rw [List.foldl_cons]
    exact Nat.le_trans (count_le_pick_left vals acc b) (ih (pick vals acc b))

theorem count_foldl_pick_mem (vals l : List String) :
    ∀ acc y, y ∈ l → vals.count y ≤ vals.count (l.foldl (pick vals) acc) := by
  induction l with
  | nil => intro acc y hy; cases hy
  | cons b l ih =>
    intro acc y hy
    rw [List.foldl_cons]
    rcases List.mem_cons.mp hy with h | h
    · subst h
      exact Nat.le_trans (count_le_pick_right vals acc y) (count_foldl_pick_acc vals l _)
    · exact ih (pick vals acc b) y h

theorem modeSmallest_spec (vals : List String) (h : vals ≠ []) :
    ∃ m, modeSmallest vals = some m ∧ m ∈ vals ∧
      ∀ x ∈ vals, vals.count x ≤ vals.count m := by
  cases vals with
  | nil => exact absurd rfl h
  | cons v vs =>
    refine ⟨vs.foldl (pick (v :: vs)) v, rfl, ?_, ?_⟩
    · rcases foldl_pick_mem (v :: vs) vs v with hm | hm
      · rw [hm]; exact List.mem_cons_self v vs
      · exact List.mem_cons_of_mem v hm
    · intro x hx
      rcases List.mem_cons.mp hx with hx | hx
      · subst hx
        exact count_foldl_pick_acc (x :: vs) vs x
      · exact count_foldl_pick_mem (v :: vs) vs v x hx

theorem chunksTR_nil : chunksTR [] = [] := by
  rw [chunksTR]
  simp

theorem chunksTR_cons (l : List TRecord) (hl : l ≠ []) :
    chunksTR l = l.take TAMANHO_LOTE :: chunksTR (l.drop TAMANHO_LOTE) := by
  rw [chunksTR]
  rw [dif_neg hl]

theorem chunksTR_flatten_aux :
    ∀ n (l : List TRecord), l.length ≤ n → (chunksTR l).flatten = l := by
  intro n
  induction n with
  | zero =>
    intro l h
    have hl : l = [] := List.eq_nil_of_length_eq_zero (Nat.le_zero.mp h)
    subst hl
    rw [chunksTR_nil]
    rfl
  | succ n ih =>
    intro l h
    by_cases hl : l = []
    · subst hl; rw [chunksTR_nil]; rfl
    · rw [chunksTR_cons l hl]
      have hlen : (l.drop TAMANHO_LOTE).length ≤ n := by
        have h0 : 0 < l.length := List.length_pos.mpr hl
        simp only [List.length_drop, TAMANHO_LOTE]
        omega
      rw [List.flatten_cons, ih _ hlen, List.take_append_drop]

theorem chunksTR_flatten (l : List TRecord) : (chunksTR l).flatten = l :=
  chunksTR_flatten_aux l.length l (Nat.le_refl _)

theorem chunksTR_length_aux :
    ∀ n (l : List TRecord), l.length ≤ n →
      (chunksTR l).length = (l.length + TAMANHO_LOTE - 1) / TAMANHO_LOTE := by
  intro n
  induction n with
  | zero =>
    intro l h
    have hl : l = [] := List.eq_nil_of_length_eq_zero (Nat.le_zero.mp h)
    subst hl
    rw [chunksTR_nil]
    decide
  | succ n ih =>
    intro l h
    by_cases hl : l = []
    · subst hl; rw [chunksTR_nil]; decide
    · rw [chunksTR_cons l hl]
      have h0 : 0 < l.length := List.length_pos.mpr hl
      have hlen : (l.drop TAMANHO_LOTE).length ≤ n := by
        simp only [List.length_drop, TAMANHO_LOTE]
        omega
      rw [List.length_cons, ih _ hlen]
      simp only [List.length_drop, TAMANHO_LOTE]
      by_cases hge : 500 ≤ l.length
      · have heq : l.length + 500 - 1 = (l.length - 500 + 500 - 1) + 500 := by omega
        rw [heq, Nat.add_div_right _ (by norm_num)]
      · have h1 : 1 ≤ (l.length + 500 - 1) / 500 :=
          (Nat.one_le_div_iff (by norm_num)).mpr (by omega)
        have h2 : (l.length + 500 - 1) / 500 < 2 :=
          (Nat.div_lt_iff_lt_mul (by norm_num)).mpr (by omega)
        have h3 : l.length - 500 = 0 := by omega
        rw [h3]
        norm_num
        omega

theorem chunksTR_length (l : List TRecord) :
    (chunksTR l).length = (l.length + TAMANHO_LOTE - 1) / TAMANHO_LOTE :=
  chunksTR_length_aux l.length l (Nat.le_refl _)

theorem chunksTR_sizes_aux :
    ∀ n (l : List TRecord), l.length ≤ n →
      ∀ c ∈ chunksTR l, c ≠ [] ∧ c.length ≤ TAMANHO_LOTE := by
  intro n
  induction n with
  | zero =>
    intro l h c hc
    have hl : l = [] := List.eq_nil_of_length_eq_zero (Nat.le_zero.mp h)
    subst hl
    rw [chunksTR_nil] at hc
    cases hc
  | succ n ih =>
    intro l h c hc
    by_cases hl : l = []
    · subst hl; rw [chunksTR_nil] at hc; cases hc
    · rw [chunksTR_cons l hl] at hc
      have h0 : 0 < l.length := List.length_pos.mpr hl
      rcases List.mem_cons.mp hc with hc | hc
      · subst hc
        constructor
        · intro heq
          have hlen0 := congrArg List.length heq
          simp only [List.length_take, List.length_nil, TAMANHO_LOTE] at hlen0
          omega
        · rw [List.length_take]
          exact Nat.min_le_left _ _
      · have hlen : (l.drop TAMANHO_LOTE).length ≤ n := by
          simp only [List.length_drop, TAMANHO_LOTE]
          omega
        exact ih _ hlen c hc

theorem chunksTR_sizes (l : List TRecord) :
    ∀ c ∈ chunksTR l, c ≠ [] ∧ c.length ≤ TAMANHO_LOTE :=
  chunksTR_sizes_aux l.length l (Nat.le_refl _)

theorem lotesAux_nil (o : Nat → Bool) (k : Nat) : lotesAux o k [] = ((0, 0), []) := by
  rw [lotesAux]
  simp

theorem lotesAux_cons (o : Nat → Bool) (k : Nat) (l : List TRecord) (hl : l ≠ []) :
    lotesAux o k l =
      if o k then
        (((l.take TAMANHO_LOTE).length + (lotesAux o (k + 1) (l.drop TAMANHO_LOTE)).1.1,
          (lotesAux o (k + 1) (l.drop TAMANHO_LOTE)).1.2),
         .insertGrat (l.take TAMANHO_LOTE) :: (lotesAux o (k + 1) (l.drop TAMANHO_LOTE)).2)
      else
        (((lotesAux o (k + 1) (l.drop TAMANHO_LOTE)).1.1,
          (l.take TAMANHO_LOTE).length + (lotesAux o (k + 1) (l.drop TAMANHO_LOTE)).1.2),
         .insertGrat (l.take TAMANHO_LOTE) :: (lotesAux o (k + 1) (l.drop TAMANHO_LOTE)).2) := by
  rw [lotesAux, dif_neg hl]

theorem lotesAux_trace_aux :
    ∀ n (o : Nat → Bool) (k : Nat) (l : List TRecord), l.length ≤ n →
      (lotesAux o k l).2 = (chunksTR l).map Op.insertGrat := by
  intro n
  induction n with
  | zero =>
    intro o k l h
    have hl : l = [] := List.eq_nil_of_length_eq_zero (Nat.le_zero.mp h)
    subst hl
    rw [lotesAux_nil, chunksTR_nil]
    rfl
  | succ n ih =>
    intro o k l h
    by_cases hl : l = []
    · subst hl; rw [lotesAux_nil, chunksTR_nil]; rfl
    · have h0 : 0 < l.length := List.length_pos.mpr hl
      have hlen : (l.drop TAMANHO_LOTE).length ≤ n := by
        simp only [List.length_drop, TAMANHO_LOTE]
        omega
      rw [lotesAux_cons o k l hl, chunksTR_cons l hl, List.map_cons]
      by_cases ho : o k
      · rw [if_pos ho]
        dsimp only
        rw [ih o (k + 1) _ hlen]
      · rw [if_neg ho]
        dsimp only
        rw [ih o (k + 1) _ hlen]

theorem lotesAux_sum_aux :
    ∀ n (o : Nat → Bool) (k : Nat) (l : List TRecord), l.length ≤ n →
      (lotesAux o k l).1.1 + (lotesAux o k l).1.2 = l.length := by
  intro n
  induction n with
  | zero =>
    intro o k l h
    have hl : l = [] := List.eq_nil_of_length_eq_zero (Nat.le_zero.mp h)
    subst hl
    rw [lotesAux_nil]
    rfl
  | succ n ih =>
    intro o k l h
    by_cases hl : l = []
    · subst hl; rw [lotesAux_nil]; rfl
    · have h0 : 0 < l.length := List.length_pos.mpr hl
      have hlen : (l.drop TAMANHO_LOTE).length ≤ n := by
        simp only [List.length_drop, TAMANHO_LOTE]
        omega
      have hsum := ih o (k + 1) (l.drop TAMANHO_LOTE) hlen
      have htake := List.length_take TAMANHO_LOTE l
      have hdrop := List.length_drop TAMANHO_LOTE l
      rw [hdrop] at hsum
      rw [lotesAux_cons o k l hl]
      by_cases ho : o k
      · rw [if_pos ho]
        dsimp only
        omega
      · rw [if_neg ho]
        dsimp only
        omega

theorem lotesAux_counts_aux :
    ∀ n (o : Nat → Bool) (k : Nat) (l : List TRecord), l.length ≤ n →
      (lotesAux o k l).1.1 =
        ((((chunksTR l).enumFrom k).filter (fun p => o p.1)).map
          (fun p => p.2.length)).sum ∧
      (lotesAux o k l).1.2 =
        ((((chunksTR l).enumFrom k).filter (fun p => !o p.1)).map
          (fun p => p.2.length)).sum := by
  intro n
  induction n with
  | zero =>
    intro o k l h
    have hl : l = [] := List.eq_nil_of_length_eq_zero (Nat.le_zero.mp h)
    subst hl
    rw [lotesAux_nil, chunksTR_nil]
    exact ⟨rfl, rfl⟩
  | succ n ih =>
    intro o k l h
    by_cases hl : l = []
    · subst hl; rw [lotesAux_nil, chunksTR_nil]; exact ⟨rfl, rfl⟩
    · have h0 : 0 < l.length := List.length_pos.mpr hl
      have hlen : (l.drop TAMANHO_LOTE).length ≤ n := by
        simp only [List.length_drop, TAMANHO_LOTE]
        omega
      obtain ⟨ih1, ih2⟩ := ih o (k + 1) (l.drop TAMANHO_LOTE) hlen
      rw [lotesAux_cons o k l hl, chunksTR_cons l hl, List.enumFrom_cons]
      by_cases ho : o k
      · rw [if_pos ho]
        dsimp only
        constructor
        · rw [List.filter_cons_of_pos (by simpa using ho), List.map_cons, List.sum_cons, ih1]
        · rw [List.filter_cons_of_neg (by simpa using ho), ih2]
      · rw [if_neg ho]
        dsimp only
        constructor
        · rw [List.filter_cons_of_neg (by simpa using ho), ih1]
        · rw [List.filter_cons_of_pos (by simpa using ho), List.map_cons, List.sum_cons, ih2]

theorem removed_count {α β : Type} (f : α → Option β) (l : List α) :
    l.length - (l.filterMap f).length = (l.filter (fun a => (f a).isNone)).length := by
  induction l with
  | nil => rfl
  | cons a l ih =>
    have hle := List.length_filterMap_le f l
    cases h : f a with
    | none =>
      rw [List.filterMap_cons, h, List.filter_cons]
      simp only [h, Option.isNone_none, if_true, List.length_cons]
      omega
    | some b =>
      rw [List.filterMap_cons, h, List.filter_cons]
      simp only [h, Option.isNone_some, Bool.false_eq_true, if_false, List.length_cons]
      omega

theorem applyOps_reads (store : Store) (ops : List Op)
    (h : ∀ op ∈ ops, op.isRead = true) : applyOps store ops = store := by
  induction ops generalizing store with
  | nil => rfl
  | cons op ops ih =>
    have hop := h op (List.mem_cons_self op ops)
    have hstep : applyOp store op = store := by
      cases op with
      | selectCount m => rfl
      | selectAll => rfl
      | insertGrat lote => simp [Op.isRead] at hop
      | deleteGrat m => simp [Op.isRead] at hop
      | insertLog e => simp [Op.isRead] at hop
    show applyOps (applyOp store op) ops = store
    rw [hstep]
    exact ih store (fun o ho => h o (List.mem_cons_of_mem op ho))

theorem validar_trace (df : Df) (enc : String) (store : Store) :
    (validar_csv df enc store).2 = [] ∨
      ∃ m, (validar_csv df enc store).2 = [Op.selectCount m] := by
  unfold validar_csv
  by_cases hc : df.columns.contains "MES_ANO"
  · rw [if_pos hc]
    cases hm : modeSmallest (df.rows.filterMap (fun r => r.mes_ano)) with
    | none => left; rfl
    | some m0 =>
      dsimp only
      by_cases hm0 : pyStrip m0 = ""
      · rw [if_pos hm0]; left; rfl
      · rw [if_neg hm0]; right; exact ⟨pyStrip m0, rfl⟩
  · rw [if_neg hc]; left; rfl

/-! Concrete sample data used by counterexamples and witnesses. -/

/-- A raw CSV row with the given NUMFUNC, NUMVINC, VALOR and MES_ANO
cells and innocuous values in every other required column. -/
def mkRawRow (nf nv va ma : Option String) : RawRow :=
  { emp_codigo := some "001", mes_ano := ma, num_folha := some "1",
    setor := some "SETOR A", orgao := some "ORG", numfunc := nf, numvinc := nv,
    situacao := some "ATIVO", cargo := some "AG", tipovinc := some "EF",
    rubrica := some "101", nome_rubrica := some "GRATIFICACAO",
    complemento := some "", competencia := some "01/2024", info := some "",
    tipo_pagamento := some "M", tipo_rubrica := some "V", vda := some "V",
    valor := va, nome_cargo := none, nome_orgao := none }

/-- A transformed record whose `mes_ano` is null (its raw `MES_ANO` cell
was empty, hence pandas `NaN`, preserved through the transformation). -/
def trecNullMes : TRecord :=
  { emp_codigo := some "001", mes_ano := none, num_folha := some "1",
    setor := some "SETOR A", orgao := some "ORG", situacao := some "ATIVO",
    cargo := some "AG", tipovinc := some "EF", rubrica := some "101",
    nome_rubrica := some "GRATIFICACAO", complemento := some "",
    competencia := some "01/2024", info := some "", tipo_pagamento := some "M",
    tipo_rubrica := some "V", vda := some "V", valor := mkRat 10 1,
    cod := "12345", importado_por := "ana", importado_em := "t0" }

/-- Transformed records with competencies 01/2024, 02/2024, 01/2024. -/
def recsC6 : List TRecord :=
  [{ trecNullMes with mes_ano := some "01/2024" },
   { trecNullMes with mes_ano := some "02/2024" },
   { trecNullMes with mes_ano := some "01/2024", cod := "99" }]

/-! Claim theorems. -/

/-- C1 counterexample: for the CSV row of end-to-end scenario 1
(NUMFUNC `"123"`, NUMVINC `"45"`, VALOR `"1.234,56"`) the Transformer
does NOT produce a surviving transformed row: the comma-to-dot
replacement turns `"1.234,56"` into `"1.234.56"`, the strip keeps both
dots, `pd.to_numeric` coerces the two-dot string to NaN, and step 5
drops the row, so the output is empty and the removed count is 1 —
refuting the claimed `valor = 1234.56` surviving row. -/
theorem C1_counterexample :
    valorNorm (some "1.234,56") = some "1.234.56" ∧
    parseDecimal "1.234.56" = none ∧
    transformar [mkRawRow (some "123") (some "45") (some "1.234,56") (some "01/2024")]
      "ana@x" "2024-02-01T00:00:00" = ([], 1) :=
  ⟨by decide, by decide, by decide⟩

/-- C1 amended: for the scenario row the Transformer derives
`cod = "12345"` but normalises VALOR `"1.234,56"` to the unparseable
string `"1.234.56"` and drops the row, so no transformed row survives;
for the thousands-free variant VALOR `"1234,56"` the surviving row has
`cod = "12345"` and `valor = 1234.56` (the rational `123456/100`). -/
theorem C1_amended :
    codOf (mkRawRow (some "123") (some "45") (some "1.234,56") (some "01/2024")) = "12345" ∧
    (transformar [mkRawRow (some "123") (some "45") (some "1.234,56") (some "01/2024")]
      "ana@x" "2024-02-01T00:00:00").1 = [] ∧
    (transformar [mkRawRow (some "123") (some "45") (some "1234,56") (some "01/2024")]
      "ana@x" "2024-02-01T00:00:00").1.map (fun t => (t.cod, t.valor)) =
      [("12345", mkRat 123456 100)] ∧
    mkRat 123456 100 = (1234.56 : Rat) :=
  ⟨by decide, by decide, by decide, by norm_num⟩

/-- C3 counterexample: the row with VALOR `"R$ 10"` is non-numeric after
comma-to-dot replacement alone, yet the subsequent strip of characters
outside [digit, dot, minus] rescues it to `"10"`, so the Transformer
keeps the row (with `valor = 10`) and counts nothing removed — refuting
that comma-to-dot non-numericity alone determines exclusion. -/
theorem C3_counterexample :
    pyFloatOk (commaToDot "R$ 10") = false ∧
    (transformar [mkRawRow (some "7") (some "") (some "R$ 10") (some "01/2024")]
      "ana" "t0").1.map (fun t => (t.cod, t.valor)) = [("7", mkRat 10 1)] ∧
    (transformar [mkRawRow (some "7") (some "") (some "R$ 10") (some "01/2024")]
      "ana" "t0").2 = 0 :=
  ⟨by decide, by decide, by decide⟩

/-- C3 amended: a row is excluded from the Transformer's output, and
counted in the removed-rows count, exactly when its VALOR fails the
numeric parse after comma-to-dot replacement AND the strip of characters
outside [digit, dot, minus] (a missing VALOR failing too), or its
derived `cod` is empty; comma-to-dot non-numericity alone does not
determine exclusion. -/
theorem C3_amended :
    ∀ (rows : List RawRow) (usr ag : String),
      (transformar rows usr ag).1 = rows.filterMap (stepRow usr ag) ∧
      (∀ r : RawRow, stepRow usr ag r = none ↔ (valorParsed r = none ∨ codOf r = "")) ∧
      (transformar rows usr ag).2 =
        (rows.filter (fun r => (stepRow usr ag r).isNone)).length := by
  intro rows usr ag
  refine ⟨rfl, ?_, ?_⟩
  · intro r
    unfold stepRow
    cases hv : valorParsed r with
    | none => simp
    | some v =>
      by_cases hc : codOf r = ""
      · simp [hc]
      · simp [hc]
  · show rows.length - (rows.filterMap (stepRow usr ag)).length = _
    exact removed_count (stepRow usr ag) rows

/-- C3 witness: the amended characterisation applied to the concrete
`"R$ 10"` row. -/
theorem C3_amended_witness :
    stepRow "ana" "t0" (mkRawRow (some "7") (some "") (some "R$ 10") (some "01/2024")) = none ↔
      (valorParsed (mkRawRow (some "7") (some "") (some "R$ 10") (some "01/2024")) = none ∨
       codOf (mkRawRow (some "7") (some "") (some "R$ 10") (some "01/2024")) = "") :=
  (C3_amended [mkRawRow (some "7") (some "") (some "R$ 10") (some "01/2024")] "ana" "t0").2.1
    (mkRawRow (some "7") (some "") (some "R$ 10") (some "01/2024"))

/-- C9: in every row whose NUMFUNC and NUMVINC are both missing or
whitespace-only (trimmed to the empty string, missing cells filled with
the empty string), the derived `cod` is empty, the row is dropped by
`stepRow`, and a list of such rows transforms to the empty output with
every row counted as removed. -/
theorem C9_blank_cod :
    ∀ (usr ag : String) (rows : List RawRow),
      (∀ r ∈ rows, (optTrim r.numfunc).getD "" = "" ∧ (optTrim r.numvinc).getD "" = "") →
      (∀ r ∈ rows, codOf r = "" ∧ stepRow usr ag r = none) ∧
      (transformar rows usr ag).1 = [] ∧
      (transformar rows usr ag).2 = rows.length := by
  intro usr ag rows h
  have hcod : ∀ r ∈ rows, codOf r = "" := by
    intro r hr
    obtain ⟨h1, h2⟩ := h r hr
    show pyStrip ((optTrim r.numfunc).getD "" ++ (optTrim r.numvinc).getD "") = ""
    rw [h1, h2]
    decide
  have hstep : ∀ r ∈ rows, stepRow usr ag r = none := by
    intro r hr
    unfold stepRow
    cases hv : valorParsed r with
    | none => rfl
    | some v =>
      dsimp only
      rw [if_pos (hcod r hr)]
  have hout : rows.filterMap (stepRow usr ag) = [] := by
    rw [List.filterMap_eq_nil_iff]
    exact hstep
  refine ⟨fun r hr => ⟨hcod r hr, hstep r hr⟩, hout, ?_⟩
  show rows.length - (rows.filterMap (stepRow usr ag)).length = rows.length
  rw [hout]
  rfl

/-- C9 witness: a row with a missing NUMFUNC and a whitespace-only
NUMVINC transforms to the empty output. -/
theorem C9_witness :
    (transformar [mkRawRow none (some "   ") (some "10,5") (some "01/2024")] "ana" "t0").1 = [] :=
  (C9_blank_cod "ana" "t0" [mkRawRow none (some "   ") (some "10,5") (some "01/2024")]
    (by decide)).2.1

/-- C2: the Column Validator succeeds exactly when every one of the 19
required columns is present (the set difference Required ∖ present is
empty), the reported `faltando` list holds exactly the missing required
names, and on failure the import endpoint answers the client error 400
with an empty store trace — no transformation output is consumed and no
delete or insert call is issued. -/
theorem C2_validator :
    ∀ cols : List String,
      COLUNAS_MANTER.length = 19 ∧
      (validar_colunas cols = true ↔ ∀ c ∈ COLUNAS_MANTER, c ∈ cols) ∧
      (∀ c, c ∈ faltando cols ↔ c ∈ COLUNAS_MANTER ∧ c ∉ cols) ∧
      (∀ (o : Nat → Bool) (rows : List RawRow) (usr arq : String)
         (substituir : Bool) (ag agL : String),
        validar_colunas cols = false →
        importar_csv o ⟨cols, rows⟩ usr arq substituir ag agL =
          (.error (400, "Estrutura do CSV inválida."), [])) := by
  intro cols
  refine ⟨by decide, validar_colunas_iff cols, mem_faltando cols, ?_⟩
  intro o rows usr arq substituir ag agL h
  unfold importar_csv
  rw [if_neg]
  simp [h]

/-- C2 witness: a header holding only EMP_CODIGO fails validation and
the import endpoint rejects it with status 400 and an empty trace. -/
theorem C2_witness :
    importar_csv (fun _ => true) ⟨["EMP_CODIGO"], []⟩ "ana" "f.csv" false "t0" "t1" =
      (.error (400, "Estrutura do CSV inválida."), []) :=
  (C2_validator ["EMP_CODIGO"]).2.2.2 (fun _ => true) [] "ana" "f.csv" false "t0" "t1"
    (by decide)

/-- C4: for every record list and oracle of per-batch outcomes, the
Importer issues one insert call per batch, the batches are the
contiguous in-order chunks of at most 500 records whose concatenation is
the whole list, the number of calls is the ceiling of N/500 (computed as
(N + 500 - 1) / 500), inserted + errored equals N, the two counters are
exactly the summed sizes of the succeeding and of the failing batches,
and the sequence of issued calls does not depend on the outcomes — a
failing batch never prevents later batches from being attempted. -/
theorem C4_batches :
    ∀ (o : Nat → Bool) (recs : List TRecord),
      (inserir_em_lotes o recs).2 = (chunksTR recs).map Op.insertGrat ∧
      (inserir_em_lotes o recs).2.length = (recs.length + TAMANHO_LOTE - 1) / TAMANHO_LOTE ∧
      (chunksTR recs).flatten = recs ∧
      (∀ c ∈ chunksTR recs, c ≠ [] ∧ c.length ≤ TAMANHO_LOTE) ∧
      (inserir_em_lotes o recs).1.1 + (inserir_em_lotes o recs).1.2 = recs.length ∧
      (inserir_em_lotes o recs).1.1 =
        ((((chunksTR recs).enumFrom 0).filter (fun p => o p.1)).map
          (fun p => p.2.length)).sum ∧
      (inserir_em_lotes o recs).1.2 =
        ((((chunksTR recs).enumFrom 0).filter (fun p => !o p.1)).map
          (fun p => p.2.length)).sum ∧
      (∀ o2 : Nat → Bool, (inserir_em_lotes o2 recs).2 = (inserir_em_lotes o recs).2) := by
  intro o recs
  unfold inserir_em_lotes
  have htr := lotesAux_trace_aux recs.length o 0 recs (Nat.le_refl _)
  obtain ⟨hins, herr⟩ := lotesAux_counts_aux recs.length o 0 recs (Nat.le_refl _)
  refine ⟨htr, ?_, chunksTR_flatten recs, chunksTR_sizes recs,
    lotesAux_sum_aux recs.length o 0 recs (Nat.le_refl _), hins, herr, ?_⟩
  · rw [htr, List.length_map, chunksTR_length]
  · intro o2
    rw [htr, lotesAux_trace_aux recs.length o2 0 recs (Nat.le_refl _)]

/-- C4 witness: 501 identical records with an all-failing oracle still
account for every record across inserted + errored. -/
theorem C4_witness :
    (inserir_em_lotes (fun _ => false) (List.replicate 501 trecNullMes)).1.1 +
      (inserir_em_lotes (fun _ => false) (List.replicate 501 trecNullMes)).1.2 =
      (List.replicate 501 trecNullMes).length :=
  (C4_batches (fun _ => false) (List.replicate 501 trecNullMes)).2.2.2.2.1

/-- C5: for every allow-list and submitted pair, login answers 403
exactly when the configured allow-list is empty; when it is nonempty it
answers 200 echoing the submitted e-mail exactly when the allow-list
maps the normalised (trimmed, lower-cased) e-mail to the submitted
password; any 200 echoes the submitted e-mail; and no outcome other
than 403, 401 and 200 is possible. -/
theorem C5_login :
    ∀ (users : List (String × String)) (email password : String),
      (login users email password = .forbidden ↔ users = []) ∧
      (users ≠ [] →
        (login users email password = .ok email ↔
          users.lookup (normEmail email) = some password)) ∧
      (∀ e, login users email password = .ok e → e = email) ∧
      (login users email password = .forbidden ∨
       login users email password = .unauthorized ∨
       login users email password = .ok email) := by
  intro users email password
  by_cases hu : users.isEmpty
  · have hnil : users = [] := List.isEmpty_iff.mp hu
    subst hnil
    simp [login]
  · have hnil : users ≠ [] := by
      intro h
      rw [h] at hu
      exact hu rfl
    unfold login
    rw [if_neg hu]
    cases hl : users.lookup (normEmail email) with
    | none =>
      dsimp only
      refine ⟨by simp [hnil], ?_, ?_, Or.inr (Or.inl rfl)⟩
      · intro _
        constructor
        · intro h; cases h
        · intro h; simp at h
      · intro e he
        cases he
    | some pw =>
      dsimp only
      by_cases hpw : pw = password
      · subst hpw
        rw [if_pos rfl]
        refine ⟨by simp [hnil], by intro _; simp, ?_, Or.inr (Or.inr rfl)⟩
        intro e he
        cases he
        rfl
      · rw [if_neg hpw]
        refine ⟨by simp [hnil], ?_, ?_, Or.inr (Or.inl rfl)⟩
        · intro _
          constructor
          · intro h; cases h
          · intro h
            cases h
            exact absurd rfl hpw
        · intro e he
          cases he

/-- C5 witness: a configured user logs in with the normalised e-mail
match and the original spelling echoed back. -/
theorem C5_witness :
    login [("ana@x.com", "s3cret")] " Ana@X.Com " "s3cret" = .ok " Ana@X.Com " :=
  ((C5_login [("ana@x.com", "s3cret")] " Ana@X.Com " "s3cret").2.1 (by decide)).mpr
    (by decide)

/-- C6 counterexample: a nonempty transformed record set whose only
`mes_ano` is null (its raw cell was empty) makes the Competency
Extractor fail — `Series.mode()` drops nulls, comes back empty, and
`.iloc[0]` raises `IndexError` (modelled as `none`) — instead of
returning a mode or the sentinel `"DESCONHECIDO"`, refuting the claim
that one of those two outcomes always happens. -/
theorem C6_counterexample :
    ([trecNullMes] : List TRecord) ≠ [] ∧ extrair_mes_ano [trecNullMes] = none :=
  ⟨by decide, by decide⟩

/-- C6 amended: on an empty transformed frame the extractor returns the
sentinel `"DESCONHECIDO"`; on a nonempty frame whose non-null `mes_ano`
values are exhausted it raises (`none`); otherwise it returns a value of
maximal multiplicity among the non-null `mes_ano` values.  It reads the
records purely and, in the import pipeline, is always applied to the
transformed frame where the `mes_ano` column exists. -/
theorem C6_amended :
    ∀ rows : List TRecord,
      (rows = [] → extrair_mes_ano rows = some "DESCONHECIDO") ∧
      (rows ≠ [] → rows.filterMap (fun t => t.mes_ano) = [] →
        extrair_mes_ano rows = none) ∧
      (rows ≠ [] → rows.filterMap (fun t => t.mes_ano) ≠ [] →
        ∃ m, extrair_mes_ano rows = some m ∧
          m ∈ rows.filterMap (fun t => t.mes_ano) ∧
          ∀ x ∈ rows.filterMap (fun t => t.mes_ano),
            (rows.filterMap (fun t => t.mes_ano)).count x ≤
              (rows.filterMap (fun t => t.mes_ano)).count m) := by
  intro rows
  refine ⟨?_, ?_, ?_⟩
  · intro h
    subst h
    rfl
  · intro hne hv
    unfold extrair_mes_ano
    rw [if_neg (fun h => hne (List.isEmpty_iff.mp h)), hv]
    rfl
  · intro hne hv
    unfold extrair_mes_ano
    rw [if_neg (fun h => hne (List.isEmpty_iff.mp h))]
    exact modeSmallest_spec _ hv

/-- C6 witness: the amended statement applied to three records with
competencies 01/2024, 02/2024, 01/2024. -/
theorem C6_amended_witness :
    ∃ m, extrair_mes_ano recsC6 = some m ∧
      m ∈ recsC6.filterMap (fun t => t.mes_ano) ∧
      ∀ x ∈ recsC6.filterMap (fun t => t.mes_ano),
        (recsC6.filterMap (fun t => t.mes_ano)).count x ≤
          (recsC6.filterMap (fun t => t.mes_ano)).count m :=
  (C6_amended recsC6).2.2 (by decide) (by decide)

/-- C7: the validar endpoint only issues read operations against the
store — applying its trace leaves the persisted state unchanged — and a
second call on the same parsed file against the state left behind by
the first call returns the same response and trace. -/
theorem C7_validar_pure :
    ∀ (df : Df) (enc : String) (store : Store),
      (∀ op ∈ (validar_csv df enc store).2, op.isRead = true) ∧
      applyOps store (validar_csv df enc store).2 = store ∧
      validar_csv df enc (applyOps store (validar_csv df enc store).2) =
        validar_csv df enc store := by
  intro df enc store
  have hread : ∀ op ∈ (validar_csv df enc store).2, op.isRead = true := by
    rcases validar_trace df enc store with h | ⟨m, h⟩
    · rw [h]
      intro op hop
      cases hop
    · rw [h]
      intro op hop
      rw [List.mem_singleton.mp hop]
      rfl
  have happ : applyOps store (validar_csv df enc store).2 = store :=
    applyOps_reads store _ hread
  exact ⟨hread, happ, by rw [happ]⟩

/-- C7 witness: the frame-preservation conjunct on a concrete file and
store. -/
theorem C7_witness :
    applyOps [trecNullMes]
      (validar_csv ⟨COLUNAS_MANTER,
        [mkRawRow (some "123") (some "45") (some "10,5") (some "01/2024")]⟩
        "utf-8" [trecNullMes]).2 = [trecNullMes] :=
  (C7_validar_pure ⟨COLUNAS_MANTER,
    [mkRawRow (some "123") (some "45") (some "10,5") (some "01/2024")]⟩
    "utf-8" [trecNullMes]).2.1

/-- C8: a delete-competencia request whose body lacks `mes_ano` (and
likewise one with the falsy empty string) issues no store call at all —
but the endpoint answers status 500, not the claimed 4xx: the
`HTTPException(400, "mes_ano não fornecido")` raised in the handler is
swallowed by the blanket `except Exception` (this endpoint, unlike
`importar_csv`, has no `except HTTPException: raise`), which re-raises
it as a 500 whose detail is the stringified 400. -/
theorem C8_code_behavior :
    deletar_competencia_api [trecNullMes] none =
      (.error (500, "400: mes_ano não fornecido"), []) ∧
    deletar_competencia_api [] (some "") =
      (.error (500, "400: mes_ano não fornecido"), []) :=
  ⟨rfl, rfl⟩

/-- C10: whenever column validation passes and the Transformer drops
every row, the import still completes: the response is success with
competency `"DESCONHECIDO"` and zero inserted and errored rows, the
trace contains no gratification insert at all and exactly one audit-log
insert, whose row counts are all zero (an optional competency delete
precedes it when `substituir` is set). -/
theorem C10_empty_import :
    ∀ (o : Nat → Bool) (df : Df) (usr arq : String) (substituir : Bool) (ag agL : String),
      validar_colunas df.columns = true →
      (transformar df.rows usr ag).1 = [] →
      importar_csv o df usr arq substituir ag agL =
        (.ok { mes_ano := "DESCONHECIDO", inseridos := 0, erros := 0,
               operacao := if substituir then "SUBSTITUICAO" else "NOVA" },
         (if substituir then [Op.deleteGrat "DESCONHECIDO"] else []) ++
           [Op.insertLog { mes_ano := "DESCONHECIDO",
                           operacao := if substituir then "SUBSTITUICAO" else "NOVA",
                           arquivo := arq, linhas_total := 0, linhas_inseridas := 0,
                           linhas_erro := 0, importado_por := usr,
                           importado_em := agL }]) ∧
      (importar_csv o df usr arq substituir ag agL).2.countP
        (fun op => match op with | .insertGrat _ => true | _ => false) = 0 ∧
      (importar_csv o df usr arq substituir ag agL).2.countP
        (fun op => match op with | .insertLog _ => true | _ => false) = 1 := by
  intro o df usr arq substituir ag agL hval hrec
  have hins : inserir_em_lotes o ([] : List TRecord) = ((0, 0), []) := lotesAux_nil o 0
  have hmain : importar_csv o df usr arq substituir ag agL =
      (.ok { mes_ano := "DESCONHECIDO", inseridos := 0, erros := 0,
             operacao := if substituir then "SUBSTITUICAO" else "NOVA" },
       (if substituir then [Op.deleteGrat "DESCONHECIDO"] else []) ++
         [Op.insertLog { mes_ano := "DESCONHECIDO",
                         operacao := if substituir then "SUBSTITUICAO" else "NOVA",
                         arquivo := arq, linhas_total := 0, linhas_inseridas := 0,
                         linhas_erro := 0, importado_por := usr,
                         importado_em := agL }]) := by
    unfold importar_csv
    rw [if_pos hval]
    dsimp only
    rw [hrec]
    rw [show extrair_mes_ano ([] : List TRecord) = some "DESCONHECIDO" from rfl]
    dsimp only
    rw [hins]
    cases substituir
    · simp
    · simp
  refine ⟨hmain, ?_, ?_⟩
  · rw [hmain]
    cases substituir
    · simp
    · simp
  · rw [hmain]
    cases substituir
    · simp
    · simp

/-- C10 witness: a valid header with a single row whose NUMFUNC and
NUMVINC are missing transforms to nothing, and the substituir import
issues no gratification insert. -/
theorem C10_witness :
    (importar_csv (fun _ => true)
      ⟨COLUNAS_MANTER, [mkRawRow none none (some "1,5") (some "01/2024")]⟩
      "ana" "f.csv" true "t0" "t1").2.countP
      (fun op => match op with | .insertGrat _ => true | _ => false) = 0 :=
  (C10_empty_import (fun _ => true)
    ⟨COLUNAS_MANTER, [mkRawRow none none (some "1,5") (some "01/2024")]⟩
    "ana" "f.csv" true "t0" "t1" (by decide) (by decide)).2.1
